import Mathlib

/-!
Verification of the `GainTransition` audio transform
(src/audiomentations/augmentations/gain_transition.py).

Modelling conventions:
* 32-bit float samples and decibel values are idealized as real numbers `ℝ`;
  decibel-space parameters that the program manipulates symbolically
  (linspace grid points, configuration bounds) are rationals `ℚ`, so that
  the index / grid arithmetic stays executable.
* numpy arrays are `List ℝ` (one channel) or `List (List ℝ)`
  (channels × samples, the shape used when `samples.ndim == 2`).
* Python `random` is an oracle passed in explicitly: each call site of
  `random.random` / `random.randint` / `random.uniform` reads a dedicated
  field of an `RNG` value, so two runs with the same oracle consume
  identical entropy.
* Python `assert` failures and `raise ValueError` are `Except.error` with
  a message describing the failed check.
-/

namespace Audiomentations

/-- Modelled from the spec: `convert_decibels_to_amplitude_ratio` lives in
`audiomentations.core.utils`, which is not part of the sources; §6 of the
spec fixes it as the pure function `db ↦ 10^(db/20)`. -/
noncomputable def convert_decibels_to_amplitude_ratio (db : ℚ) : ℝ :=
  (10 : ℝ) ^ ((db : ℝ) / 20)

/-- `np.linspace(start, stop, num)` with `endpoint=True` (numpy's default,
as used in `get_fade_mask`): `num` evenly spaced points from `start` to
`stop` inclusive.  For `num = 1` numpy returns `[start]`, which the single
formula below also yields because `x / 0 = 0` in `ℚ`. -/
def linspace (start stop : ℚ) (num : ℕ) : List ℚ :=
  (List.range num).map
    (fun i : ℕ => start + (stop - start) * (i : ℚ) / ((num : ℚ) - 1))

/-- `get_fade_mask` (gain_transition.py lines 12-30): linspace in decibel
space from `start_level_db` to `end_level_db`, then converted pointwise to
linear amplitude ratios. -/
noncomputable def get_fade_mask (start_level_db end_level_db : ℚ)
    (fade_time_samples : ℕ) : List ℝ :=
  (linspace start_level_db end_level_db fade_time_samples).map
    convert_decibels_to_amplitude_ratio

/-- The configuration stored on a successfully constructed `GainTransition`
instance (the fields assigned in `__init__`). -/
structure GTConfig where
  min_gain_db : ℚ
  max_gain_db : ℚ
  min_duration : ℚ
  max_duration : ℚ
  duration_unit : String
deriving DecidableEq

/-- The per-invocation parameters staged in `self.parameters` by
`randomize_parameters` when `should_apply` is true. -/
structure GTParams where
  fade_time_samples : ℕ
  t0 : ℤ
  start_gain_db : ℚ
  end_gain_db : ℚ
deriving DecidableEq

namespace GainTransition

/-- `GainTransition.__init__` (lines 50-115).  Arguments other than `p`
(whose validation lives in the external base class) in source order; the
two deprecation-warning branches store the alias value, warnings being
invisible to the data model.  The three `assert` statements become errors
in source order.  Note: `duration_unit` is stored WITHOUT validation. -/
def init (min_gain_in_db max_gain_in_db min_gain_db max_gain_db : Option ℚ)
    (min_duration max_duration : ℚ) (duration_unit : String) :
    Except String GTConfig := do
  let resolved_min_gain_db : ℚ ←
    match min_gain_db, min_gain_in_db with
    | some _, some _ =>
        Except.error
          "Passing both min_gain_db and min_gain_in_db is not supported. Use only min_gain_db."
    | some v, none => Except.ok v
    | none, some v => Except.ok v
    | none, none => Except.ok (-24)
  let resolved_max_gain_db : ℚ ←
    match max_gain_db, max_gain_in_db with
    | some _, some _ =>
        Except.error
          "Passing both max_gain_db and max_gain_in_db is not supported. Use only max_gain_db."
    | some v, none => Except.ok v
    | none, some v => Except.ok v
    | none, none => Except.ok 6
  if resolved_min_gain_db ≤ resolved_max_gain_db then
    if 0 < min_duration then
      if min_duration ≤ max_duration then
        Except.ok
          { min_gain_db := resolved_min_gain_db
            max_gain_db := resolved_max_gain_db
            min_duration := min_duration
            max_duration := max_duration
            duration_unit := duration_unit }
      else Except.error "AssertionError: min_duration <= max_duration"
    else Except.error "AssertionError: min_duration > 0"
  else Except.error "AssertionError: min_gain_db <= max_gain_db"

/-- Python's `round` (banker's rounding, ties to even), as applied by
`int(round(...))` in `randomize_parameters`. -/
def round_half_even (q : ℚ) : ℤ :=
  if q - ⌊q⌋ < 1 / 2 then ⌊q⌋
  else if 1 / 2 < q - ⌊q⌋ then ⌊q⌋ + 1
  else if ⌊q⌋ % 2 = 0 then ⌊q⌋ else ⌊q⌋ + 1

/-- The duration-unit dispatch of `randomize_parameters` (lines 120-134),
producing `(min_duration_in_samples, max_duration_in_samples)`.  In the
`"samples"` branch the stored values are used directly (the program never
converts them), so the result type is `ℚ × ℚ`. -/
def duration_range_in_samples (cfg : GTConfig) (num_samples : ℕ)
    (sample_rate : ℕ) : Except String (ℚ × ℚ) :=
  if cfg.duration_unit = "samples" then
    Except.ok (cfg.min_duration, cfg.max_duration)
  else if cfg.duration_unit = "fraction" then
    Except.ok ((round_half_even (cfg.min_duration * num_samples) : ℚ),
      (round_half_even (cfg.max_duration * num_samples) : ℚ))
  else if cfg.duration_unit = "seconds" then
    Except.ok ((round_half_even (cfg.min_duration * sample_rate) : ℚ),
      (round_half_even (cfg.max_duration * sample_rate) : ℚ))
  else Except.error "Invalid duration_unit"

/-- The entropy consumed by one `randomize_parameters` call, as an explicit
oracle.  `bernoulli_draw` models the base class's `should_apply` coin flip
(external collaborator, spec §6); `randint1` is the `random.randint` call
for the fade duration, `randint2` the one for `t0`, and `uniform1` /
`uniform2` the two `random.uniform` calls for the start / end gains. -/
structure RNG where
  bernoulli_draw : Bool
  randint1 : ℚ → ℚ → ℤ
  randint2 : ℤ → ℤ → ℤ
  uniform1 : ℚ → ℚ → ℚ
  uniform2 : ℚ → ℚ → ℚ

/-- `GainTransition.randomize_parameters` (lines 117-148): returns `none`
when `should_apply` is false, the staged parameters when it is true, and
an error when the stored `duration_unit` is unrecognized. -/
def randomize_parameters (cfg : GTConfig) (num_samples : ℕ)
    (sample_rate : ℕ) (rng : RNG) : Except String (Option GTParams) :=
  if rng.bernoulli_draw then
    match duration_range_in_samples cfg num_samples sample_rate with
    | Except.error e => Except.error e
    | Except.ok (min_d, max_d) =>
      let fade : ℤ := max 3 (rng.randint1 min_d max_d)
      let t0 : ℤ := rng.randint2 (-fade + 2) ((num_samples : ℤ) - 2)
      Except.ok (some
        { fade_time_samples := fade.toNat
          t0 := t0
          start_gain_db := rng.uniform1 cfg.min_gain_db cfg.max_gain_db
          end_gain_db := rng.uniform2 cfg.min_gain_db cfg.max_gain_db })
  else Except.ok none

/-- The two mask crops of `apply` (lines 159-169): if `t0 < 0` shave
`|t0|` points off the beginning; if `t0 + fade` exceeds `num_samples`
shave the excess off the end. -/
def cropMask (t0 : ℤ) (fade : ℕ) (num_samples : ℕ) (mask : List ℝ) :
    List ℝ :=
  let mask1 := if t0 < 0 then mask.drop t0.natAbs else mask
  if t0 + (fade : ℤ) > (num_samples : ℤ) then
    mask1.take (mask1.length - (t0 + (fade : ℤ) - (num_samples : ℤ)).toNat)
  else mask1

/-- `samples[..., s:e] *= mask` on one channel: each sample with index in
`[s, e)` is multiplied by the mask point aligned with it.  numpy requires
`mask.length = e - s`; within that regime the `getD` fallback is inert. -/
def mulSliceMask (xs : List ℝ) (s e : ℕ) (mask : List ℝ) : List ℝ :=
  xs.mapIdx (fun i x => if s ≤ i ∧ i < e then x * mask.getD (i - s) 1 else x)

/-- `samples[..., :s] *= g` on one channel. -/
def mulBeforeScalar (xs : List ℝ) (s : ℕ) (g : ℝ) : List ℝ :=
  xs.mapIdx (fun i x => if i < s then x * g else x)

/-- `samples[..., e:] *= g` on one channel. -/
def mulFromScalar (xs : List ℝ) (e : ℕ) (g : ℝ) : List ℝ :=
  xs.mapIdx (fun i x => if e ≤ i then x * g else x)

/-- `GainTransition.apply` (lines 150-182) on a single channel.  The crop
bookkeeping mirrors the source: indices clamp to `[0, num_samples]` while
the mask loses the same number of points, then the three region multiplies
run on a copy of the input (copying is identity on immutable values). -/
noncomputable def apply (p : GTParams) (samples : List ℝ) : List ℝ :=
  let num_samples := samples.length
  let fade_mask := get_fade_mask p.start_gain_db p.end_gain_db
    p.fade_time_samples
  let start_sample_index : ℤ := if p.t0 < 0 then 0 else p.t0
  let end_sample_index : ℤ :=
    if p.t0 + (p.fade_time_samples : ℤ) > (num_samples : ℤ) then num_samples
    else p.t0 + (p.fade_time_samples : ℤ)
  let cropped := cropMask p.t0 p.fade_time_samples num_samples fade_mask
  let out1 := mulSliceMask samples start_sample_index.toNat
    end_sample_index.toNat cropped
  let out2 :=
    if start_sample_index > 0 then
      mulBeforeScalar out1 start_sample_index.toNat
        (convert_decibels_to_amplitude_ratio p.start_gain_db)
    else out1
  if end_sample_index < (num_samples : ℤ) then
    mulFromScalar out2 end_sample_index.toNat
      (convert_decibels_to_amplitude_ratio p.end_gain_db)
  else out2

/-- `apply` on a 2-D (channels × samples) waveform: every slice above acts
on the last axis and broadcasts over channels, so the whole call is the
per-channel map. -/
noncomputable def applyMultichannel (p : GTParams) (chans : List (List ℝ)) :
    List (List ℝ) :=
  chans.map (apply p)

/-- One probability-gated invocation on one channel: randomize, then apply
when selected, else return the input unchanged (base-class gate, §6). -/
noncomputable def run_transform (cfg : GTConfig) (rng : RNG)
    (samples : List ℝ) (sample_rate : ℕ) : Except String (List ℝ) :=
  match randomize_parameters cfg samples.length sample_rate rng with
  | Except.error e => Except.error e
  | Except.ok none => Except.ok samples
  | Except.ok (some p) => Except.ok (apply p samples)

/-- The effective start index of the transition window after cropping:
`max(t0, 0)` (the claim's `effective_start`). -/
def effectiveStart (t0 : ℤ) : ℕ := (max t0 0).toNat

/-- The effective end index of the transition window after cropping:
`min(t0 + fade_time_samples, total_samples)` (the claim's
`effective_end`). -/
def effectiveEnd (t0 : ℤ) (fade total : ℕ) : ℕ :=
  (min (t0 + (fade : ℤ)) (total : ℤ)).toNat

/-- The per-sample multiplier the spec ascribes to `apply`: held start
gain before the window, the cropped curve inside it, held end gain from
its end on. -/
noncomputable def gain_multiplier (p : GTParams) (total : ℕ) (i : ℕ) : ℝ :=
  if i < effectiveStart p.t0 then
    convert_decibels_to_amplitude_ratio p.start_gain_db
  else if i < effectiveEnd p.t0 p.fade_time_samples total then
    (cropMask p.t0 p.fade_time_samples total
      (get_fade_mask p.start_gain_db p.end_gain_db
        p.fade_time_samples)).getD (i - effectiveStart p.t0) 1
  else convert_decibels_to_amplitude_ratio p.end_gain_db

/-- Size of the intersection of the transition window `[t0, t0 + fade)`
with the waveform's valid index range `[0, total)`. -/
def windowOverlap (t0 : ℤ) (fade total : ℕ) : ℕ :=
  (min (t0 + (fade : ℤ)) (total : ℤ) - max t0 0).toNat

/-- A concrete entropy source used to instantiate universally quantified
theorems: the coin flip selects the transform, `random.randint` returns 5,
the remaining draws return 0. -/
def sampleRNG : RNG where
  bernoulli_draw := true
  randint1 := fun _ _ => 5
  randint2 := fun _ _ => 0
  uniform1 := fun _ _ => 0
  uniform2 := fun _ _ => 0

/-- A concrete stored configuration (the one `init none none none none 1 2
"seconds"` produces) used to instantiate universally quantified
theorems. -/
def sampleCfg : GTConfig :=
  { min_gain_db := -24, max_gain_db := 6, min_duration := 1
    max_duration := 2, duration_unit := "seconds" }

end GainTransition

open GainTransition

/-! ## Basic facts about the fade mask and the crops -/

theorem linspace_length (s e : ℚ) (n : ℕ) : (linspace s e n).length = n := by
  unfold linspace
  rw [List.length_map, List.length_range]

theorem get_fade_mask_length (s e : ℚ) (n : ℕ) :
    (get_fade_mask s e n).length = n := by
  unfold get_fade_mask
  rw [List.length_map, linspace_length]

theorem linspace_getD (s e : ℚ) (n i : ℕ) (h : i < n) (d : ℚ) :
    (linspace s e n).getD i d = s + (e - s) * i / ((n : ℚ) - 1) := by
  rw [List.getD_eq_getElem _ _ (by rw [linspace_length]; exact h)]
  unfold linspace
  rw [List.getElem_map, List.getElem_range]

theorem get_fade_mask_getD (s e : ℚ) (n i : ℕ) (h : i < n) (d : ℝ) :
    (get_fade_mask s e n).getD i d
      = convert_decibels_to_amplitude_ratio
          (s + (e - s) * i / ((n : ℚ) - 1)) := by
  rw [List.getD_eq_getElem _ _ (by rw [get_fade_mask_length]; exact h)]
  unfold get_fade_mask
  rw [List.getElem_map]
  have hl := linspace_getD s e n i h 0
  rw [List.getD_eq_getElem _ _ (by rw [linspace_length]; exact h)] at hl
  rw [hl]

theorem cropMask_length (t0 : ℤ) (fade total : ℕ) (mask : List ℝ)
    (hm : mask.length = fade) (hl : -(fade : ℤ) + 2 ≤ t0)
    (hr : t0 ≤ (total : ℤ) - 2) :
    (cropMask t0 fade total mask).length
      = effectiveEnd t0 fade total - effectiveStart t0 := by
  simp only [cropMask, effectiveEnd, effectiveStart]
  split_ifs <;>
    simp only [List.length_take, List.length_drop, hm] <;> omega

/-- **C1.** For every `fade_time_samples ≥ 3`, waveform length
`total_samples ≥ 1` and `t0 ∈ [-fade_time_samples + 2, total_samples - 2]`,
the cropping step of `apply` yields a cropped curve whose length equals
`effective_end - effective_start` exactly, with
`effective_start = max(t0, 0)` and
`effective_end = min(t0 + fade_time_samples, total_samples)`. -/
theorem cropped_curve_length_eq (s e : ℚ) (fade total : ℕ) (t0 : ℤ)
    (h3 : 3 ≤ fade) (h1 : 1 ≤ total)
    (hl : -(fade : ℤ) + 2 ≤ t0) (hr : t0 ≤ (total : ℤ) - 2) :
    (cropMask t0 fade total (get_fade_mask s e fade)).length
      = effectiveEnd t0 fade total - effectiveStart t0 :=
  cropMask_length t0 fade total _ (get_fade_mask_length s e fade) hl hr

/-- Witness for C1 with both crops active: `fade = 4`, `total = 10`,
`t0 = -2`. -/
theorem cropped_curve_length_eq_witness :
    (cropMask (-2) 4 10 (get_fade_mask 1 2 4)).length
      = effectiveEnd (-2) 4 10 - effectiveStart (-2) :=
  cropped_curve_length_eq 1 2 4 10 (-2) (by decide) (by decide) (by decide)
    (by decide)

/-! ## The t0 range and the window overlap (C7) -/

/-- `windowOverlap` is really the number of indices the transition window
shares with the waveform's valid index range. -/
theorem windowOverlap_eq_card (t0 : ℤ) (fade total : ℕ) :
    windowOverlap t0 fade total
      = ((Finset.Ico t0 (t0 + (fade : ℤ))) ∩
          Finset.Ico 0 (total : ℤ)).card := by
  rw [Finset.Ico_inter_Ico, Int.card_Ico]
  rfl

/-- **C7, counterexample.** With `fade_time_samples = 3` and
`total_samples = 1`, the draw `t0 = -1` lies in the documented range
`[-fade_time_samples + 2, total_samples - 2]`, yet the transition window
`[-1, 2)` overlaps the valid index range `[0, 1)` in only one sample. -/
theorem t0_overlap_counterexample :
    (-(3 : ℤ) + 2 ≤ -1 ∧ (-1 : ℤ) ≤ (1 : ℤ) - 2) ∧
      windowOverlap (-1) 3 1 < 2 := by
  decide

/-- **C7, amended.** For every `fade_time_samples ≥ 3` and every
`total_samples ≥ 2` (the claim fails for `total_samples = 1`), every `t0`
in `[-fade_time_samples + 2, total_samples - 2]` makes the transition
window overlap the waveform's valid index range in at least 2 samples. -/
theorem t0_overlap_ge_two (fade total : ℕ) (t0 : ℤ)
    (h3 : 3 ≤ fade) (h2 : 2 ≤ total)
    (hl : -(fade : ℤ) + 2 ≤ t0) (hr : t0 ≤ (total : ℤ) - 2) :
    2 ≤ windowOverlap t0 fade total := by
  simp only [windowOverlap]
  omega

/-- Witness for the amended C7: `fade = 3`, `total = 2`, `t0 = 0`. -/
theorem t0_overlap_ge_two_witness : 2 ≤ windowOverlap 0 3 2 :=
  t0_overlap_ge_two 3 2 0 (by decide) (by decide) (by decide) (by decide)

/-! ## Randomized fade duration (C8) -/

/-- **C8.** Whenever `randomize_parameters` stages parameters (i.e. the
Bernoulli draw selected the transform and no error was raised), the stored
`fade_time_samples` is at least 3: the `randint` draw is clamped through
`max(3, ·)`. -/
theorem randomize_fade_time_ge_three (cfg : GTConfig) (n r : ℕ) (rng : RNG)
    (p : GTParams)
    (h : randomize_parameters cfg n r rng = Except.ok (some p)) :
    3 ≤ p.fade_time_samples := by
  unfold randomize_parameters at h
  by_cases hb : rng.bernoulli_draw
  · rw [if_pos hb] at h
    rcases hdr : duration_range_in_samples cfg n r with err | pair
    · rw [hdr] at h
      cases h
    · rw [hdr] at h
      simp only [Except.ok.injEq, Option.some.injEq] at h
      have hf : p.fade_time_samples
          = (max 3 (rng.randint1 pair.1 pair.2)).toNat := by
        rw [← h]
      omega
  · rw [if_neg hb] at h
    simp only [Except.ok.injEq] at h
    cases h


/-! ## The fade curve (C3) -/

theorem convert_decibels_pos (db : ℚ) :
    0 < convert_decibels_to_amplitude_ratio db :=
  Real.rpow_pos_of_pos (by norm_num) _

theorem convert_decibels_le_of_le {a b : ℚ} (h : a ≤ b) :
    convert_decibels_to_amplitude_ratio a
      ≤ convert_decibels_to_amplitude_ratio b := by
  unfold convert_decibels_to_amplitude_ratio
  rw [Real.rpow_le_rpow_left_iff (by norm_num : (1 : ℝ) < 10)]
  have hab : (a : ℝ) ≤ (b : ℝ) := by exact_mod_cast h
  linarith

/-- **C3, counterexample.** At `length = 1` the generator returns the
single point `[10^(start/20)]` (numpy `linspace` keeps only the start when
`num = 1`), so with `start = 0 dB`, `end = 20 dB` the last element is `1`,
not `10^(20/20) = 10` as the claim asserts for every `length ≥ 1`. -/
theorem fade_mask_last_counterexample :
    ¬ ((get_fade_mask 0 20 1).getD 0 1
        = convert_decibels_to_amplitude_ratio 20) := by
  have h0 := get_fade_mask_getD 0 20 1 0 (by decide) 1
  have e1 : (0 : ℚ) + (20 - 0) * ((0 : ℕ) : ℚ) / ((1 : ℕ) - 1 : ℚ) = 0 := by
    norm_num
  rw [e1] at h0
  rw [h0]
  intro hc
  unfold convert_decibels_to_amplitude_ratio at hc
  rw [show (((0 : ℚ) : ℝ) / 20) = 0 by norm_num,
    show (((20 : ℚ) : ℝ) / 20) = 1 by norm_num,
    Real.rpow_zero, Real.rpow_one] at hc
  norm_num at hc

/-- **C3, amended.** For every `start_level_db`, `end_level_db` and
`length ≥ 1`, the fade-curve generator returns exactly `length` elements,
all strictly positive, whose first element equals `10^(start/20)`, whose
last element equals `10^(end/20)` provided `length ≥ 2` (for `length = 1`
numpy's `linspace` keeps only the start point), and which is
non-decreasing when `start ≤ end` and non-increasing when `end ≤ start`. -/
theorem get_fade_mask_spec (s e : ℚ) (n : ℕ) (hn : 1 ≤ n) :
    (get_fade_mask s e n).length = n ∧
    (∀ i, i < n → 0 < (get_fade_mask s e n).getD i 1) ∧
    (get_fade_mask s e n).getD 0 1 = convert_decibels_to_amplitude_ratio s ∧
    (2 ≤ n →
      (get_fade_mask s e n).getD (n - 1) 1
        = convert_decibels_to_amplitude_ratio e) ∧
    (s ≤ e → ∀ i j, i ≤ j → j < n →
      (get_fade_mask s e n).getD i 1 ≤ (get_fade_mask s e n).getD j 1) ∧
    (e ≤ s → ∀ i j, i ≤ j → j < n →
      (get_fade_mask s e n).getD j 1 ≤ (get_fade_mask s e n).getD i 1) := by
  refine ⟨get_fade_mask_length s e n, ?_, ?_, ?_, ?_, ?_⟩
  · intro i hi
    rw [get_fade_mask_getD s e n i hi]
    exact convert_decibels_pos _
  · rw [get_fade_mask_getD s e n 0 (by omega)]
    norm_num
  · intro h2
    rw [get_fade_mask_getD s e n (n - 1) (by omega)]
    congr 1
    have hcast : (((n - 1 : ℕ)) : ℚ) = (n : ℚ) - 1 := by
      rw [Nat.cast_sub (by omega : 1 ≤ n)]
      norm_num
    have hne : ((n : ℚ) - 1) ≠ 0 := by
      have h2q : (2 : ℚ) ≤ (n : ℚ) := by exact_mod_cast h2
      intro hq
      linarith
    rw [hcast]
    field_simp
  · intro hse i j hij hj
    rw [get_fade_mask_getD s e n i (by omega), get_fade_mask_getD s e n j hj]
    apply convert_decibels_le_of_le
    rcases Nat.lt_or_ge n 2 with h1 | h2
    · have hn1 : n = 1 := by omega
      have hj0 : j = 0 := by omega
      have hi0 : i = 0 := by omega
      rw [hi0, hj0]
    · have hpos : (0 : ℚ) < (n : ℚ) - 1 := by
        have h2q : (2 : ℚ) ≤ (n : ℚ) := by exact_mod_cast h2
        linarith
      have hij' : (i : ℚ) ≤ (j : ℚ) := by exact_mod_cast hij
      apply add_le_add_left
      rw [div_le_div_iff_of_pos_right hpos]
      exact mul_le_mul_of_nonneg_left hij' (by linarith)
  · intro hes i j hij hj
    rw [get_fade_mask_getD s e n i (by omega), get_fade_mask_getD s e n j hj]
    apply convert_decibels_le_of_le
    rcases Nat.lt_or_ge n 2 with h1 | h2
    · have hn1 : n = 1 := by omega
      have hj0 : j = 0 := by omega
      have hi0 : i = 0 := by omega
      rw [hi0, hj0]
    · have hpos : (0 : ℚ) < (n : ℚ) - 1 := by
        have h2q : (2 : ℚ) ≤ (n : ℚ) := by exact_mod_cast h2
        linarith
      have hij' : (i : ℚ) ≤ (j : ℚ) := by exact_mod_cast hij
      apply add_le_add_left
      rw [div_le_div_iff_of_pos_right hpos]
      exact mul_le_mul_of_nonpos_left hij' (by linarith)

/-! ## Construction-time vs randomization-time unit validation (C2) -/

theorem duration_range_invalid_unit (cfg : GTConfig)
    (hu : ¬ (cfg.duration_unit = "samples" ∨ cfg.duration_unit = "fraction"
        ∨ cfg.duration_unit = "seconds")) (n r : ℕ) :
    duration_range_in_samples cfg n r
      = Except.error "Invalid duration_unit" := by
  unfold duration_range_in_samples
  rw [if_neg (fun h => hu (Or.inl h)),
    if_neg (fun h => hu (Or.inr (Or.inl h))),
    if_neg (fun h => hu (Or.inr (Or.inr h)))]

/-- **C2, counterexample.** Construction with the unrecognized unit
`"bogus"` succeeds (the constructor never inspects `duration_unit`), and a
subsequent `randomize_parameters` call whose Bernoulli draw selects the
transform does reach the `Invalid duration_unit` error — the claim asserts
construction fails and the randomization check is unreachable. -/
theorem duration_unit_not_validated_at_init :
    init none none none none 1 2 "bogus"
      = Except.ok ⟨-24, 6, 1, 2, "bogus"⟩ ∧
    randomize_parameters ⟨-24, 6, 1, 2, "bogus"⟩ 10 100 sampleRNG
      = Except.error "Invalid duration_unit" := by
  constructor <;> rfl

/-- **C2, amended.** Construction stores any `duration_unit` unvalidated:
with otherwise valid bounds it succeeds for every unit string.  An
unrecognized unit is detected only at randomization time, when the
Bernoulli draw selects the transform: `randomize_parameters` then fails
with the `Invalid duration_unit` error, so the randomization-time check is
reachable. -/
theorem invalid_unit_detected_at_randomize (md Md : ℚ) (u : String)
    (h0 : 0 < md) (h1 : md ≤ Md)
    (hu : ¬ (u = "samples" ∨ u = "fraction" ∨ u = "seconds"))
    (n r : ℕ) (rng : RNG) (hb : rng.bernoulli_draw = true) :
    init none none none none md Md u = Except.ok ⟨-24, 6, md, Md, u⟩ ∧
    randomize_parameters ⟨-24, 6, md, Md, u⟩ n r rng
      = Except.error "Invalid duration_unit" := by
  constructor
  · show (if (-24 : ℚ) ≤ 6 then
        if 0 < md then
          if md ≤ Md then
            Except.ok (⟨-24, 6, md, Md, u⟩ : GTConfig)
          else Except.error "AssertionError: min_duration <= max_duration"
        else Except.error "AssertionError: min_duration > 0"
      else Except.error "AssertionError: min_gain_db <= max_gain_db")
      = Except.ok ⟨-24, 6, md, Md, u⟩
    rw [if_pos (by norm_num : (-24 : ℚ) ≤ 6), if_pos h0, if_pos h1]
  · unfold randomize_parameters
    rw [hb]
    rw [if_pos rfl]
    rw [duration_range_invalid_unit ⟨-24, 6, md, Md, u⟩ hu n r]

/-- Witness for the amended C2 at `min_duration = 1`, `max_duration = 2`,
`duration_unit = "bogus"`. -/
theorem invalid_unit_detected_at_randomize_witness :
    init none none none none 1 2 "bogus"
      = Except.ok ⟨-24, 6, 1, 2, "bogus"⟩ ∧
    randomize_parameters ⟨-24, 6, 1, 2, "bogus"⟩ 5 8000 sampleRNG
      = Except.error "Invalid duration_unit" :=
  invalid_unit_detected_at_randomize 1 2 "bogus" (by norm_num) (by norm_num)
    (by decide) 5 8000 sampleRNG rfl

/-! ## Determinism of the randomize-then-apply pipeline (C9) -/

/-- **C9.** Two transform instances constructed from the same argument
tuple, driven by identical entropy, produce identical outputs on identical
inputs: the whole randomize-then-apply pipeline is a function of the
stored configuration, the entropy source, the waveform and the sample
rate. -/
theorem transform_deterministic (a b c d : Option ℚ) (md Md : ℚ)
    (u : String) (cfg₁ cfg₂ : GTConfig)
    (h₁ : init a b c d md Md u = Except.ok cfg₁)
    (h₂ : init a b c d md Md u = Except.ok cfg₂)
    (rng : RNG) (samples : List ℝ) (sr : ℕ) :
    run_transform cfg₁ rng samples sr = run_transform cfg₂ rng samples sr := by
  rw [h₁] at h₂
  cases h₂
  rfl

/-- Witness for C9 at the default-gain configuration. -/
theorem transform_deterministic_witness :
    run_transform sampleCfg sampleRNG [1] 16000
      = run_transform sampleCfg sampleRNG [1] 16000 :=
  transform_deterministic none none none none 1 2 "seconds" sampleCfg
    sampleCfg rfl rfl sampleRNG [1] 16000

/-! ## Deprecated gain aliases (C10) -/

/-- **C10.** Gain-bound resolution in the constructor: passing both the
new name and its deprecated alias raises an error (for the min pair and
for the max pair); passing only the deprecated alias stores its value in
the new field; passing neither yields the defaults
`min_gain_db = -24`, `max_gain_db = 6`. -/
theorem gain_alias_resolution :
    (∀ (a b : ℚ) (y z : Option ℚ) (md Md : ℚ) (u : String),
      init (some a) y (some b) z md Md u
        = Except.error
          "Passing both min_gain_db and min_gain_in_db is not supported. Use only min_gain_db.") ∧
    (∀ (a b : ℚ) (z : Option ℚ) (md Md : ℚ) (u : String),
      init none (some a) z (some b) md Md u
        = Except.error
          "Passing both max_gain_db and max_gain_in_db is not supported. Use only max_gain_db.") ∧
    (∀ (a md Md : ℚ) (u : String), a ≤ 6 → 0 < md → md ≤ Md →
      init (some a) none none none md Md u
        = Except.ok ⟨a, 6, md, Md, u⟩) ∧
    (∀ (b md Md : ℚ) (u : String), -24 ≤ b → 0 < md → md ≤ Md →
      init none (some b) none none md Md u
        = Except.ok ⟨-24, b, md, Md, u⟩) ∧
    (∀ (md Md : ℚ) (u : String), 0 < md → md ≤ Md →
      init none none none none md Md u
        = Except.ok ⟨-24, 6, md, Md, u⟩) := by
  refine ⟨?_, ?_, ?_, ?_, ?_⟩
  · intro a b y z md Md u
    rfl
  · intro a b z md Md u
    cases z <;> rfl
  · intro a md Md u ha h0 h1
    show (if a ≤ 6 then
        if 0 < md then
          if md ≤ Md then Except.ok (⟨a, 6, md, Md, u⟩ : GTConfig)
          else Except.error "AssertionError: min_duration <= max_duration"
        else Except.error "AssertionError: min_duration > 0"
      else Except.error "AssertionError: min_gain_db <= max_gain_db")
      = Except.ok ⟨a, 6, md, Md, u⟩
    rw [if_pos ha, if_pos h0, if_pos h1]
  · intro b md Md u hb h0 h1
    show (if (-24 : ℚ) ≤ b then
        if 0 < md then
          if md ≤ Md then Except.ok (⟨-24, b, md, Md, u⟩ : GTConfig)
          else Except.error "AssertionError: min_duration <= max_duration"
        else Except.error "AssertionError: min_duration > 0"
      else Except.error "AssertionError: min_gain_db <= max_gain_db")
      = Except.ok ⟨-24, b, md, Md, u⟩
    rw [if_pos hb, if_pos h0, if_pos h1]
  · intro md Md u h0 h1
    show (if (-24 : ℚ) ≤ 6 then
        if 0 < md then
          if md ≤ Md then Except.ok (⟨-24, 6, md, Md, u⟩ : GTConfig)
          else Except.error "AssertionError: min_duration <= max_duration"
        else Except.error "AssertionError: min_duration > 0"
      else Except.error "AssertionError: min_gain_db <= max_gain_db")
      = Except.ok ⟨-24, 6, md, Md, u⟩
    rw [if_pos (by norm_num : (-24 : ℚ) ≤ 6), if_pos h0, if_pos h1]

/-- Witness for C10: all five alias-resolution behaviours at concrete
arguments. -/
theorem gain_alias_resolution_witness :
    init (some 1) none (some 2) none 1 2 "seconds"
      = Except.error
        "Passing both min_gain_db and min_gain_in_db is not supported. Use only min_gain_db." ∧
    init none (some 1) none (some 2) 1 2 "seconds"
      = Except.error
        "Passing both max_gain_db and max_gain_in_db is not supported. Use only max_gain_db." ∧
    init (some (-10)) none none none 1 2 "seconds"
      = Except.ok ⟨-10, 6, 1, 2, "seconds"⟩ ∧
    init none (some 3) none none 1 2 "seconds"
      = Except.ok ⟨-24, 3, 1, 2, "seconds"⟩ ∧
    init none none none none 1 2 "seconds"
      = Except.ok ⟨-24, 6, 1, 2, "seconds"⟩ :=
  ⟨gain_alias_resolution.1 1 2 none none 1 2 "seconds",
    gain_alias_resolution.2.1 1 2 none 1 2 "seconds",
    gain_alias_resolution.2.2.1 (-10) 1 2 "seconds" (by norm_num)
      (by norm_num) (by norm_num),
    gain_alias_resolution.2.2.2.1 3 1 2 "seconds" (by norm_num) (by norm_num)
      (by norm_num),
    gain_alias_resolution.2.2.2.2 1 2 "seconds" (by norm_num) (by norm_num)⟩

/-! ## Pointwise behaviour of the region multiplies (toward C4, C5) -/

theorem getD_mapIdx (xs : List ℝ) (f : ℕ → ℝ → ℝ) (i : ℕ)
    (hi : i < xs.length) (d : ℝ) :
    (List.mapIdx f xs).getD i d = f i (xs.getD i d) := by
  rw [List.getD_eq_getElem _ _ (by rw [List.length_mapIdx]; exact hi),
    List.getElem_mapIdx, List.getD_eq_getElem _ _ hi]

theorem mulSliceMask_length (xs : List ℝ) (s e : ℕ) (mask : List ℝ) :
    (mulSliceMask xs s e mask).length = xs.length := by
  unfold mulSliceMask
  rw [List.length_mapIdx]

theorem mulBeforeScalar_length (xs : List ℝ) (s : ℕ) (g : ℝ) :
    (mulBeforeScalar xs s g).length = xs.length := by
  unfold mulBeforeScalar
  rw [List.length_mapIdx]

theorem mulFromScalar_length (xs : List ℝ) (e : ℕ) (g : ℝ) :
    (mulFromScalar xs e g).length = xs.length := by
  unfold mulFromScalar
  rw [List.length_mapIdx]

theorem mulSliceMask_getD (xs : List ℝ) (s e : ℕ) (mask : List ℝ) (i : ℕ)
    (hi : i < xs.length) (d : ℝ) :
    (mulSliceMask xs s e mask).getD i d
      = if s ≤ i ∧ i < e then xs.getD i d * mask.getD (i - s) 1
        else xs.getD i d := by
  unfold mulSliceMask
  rw [getD_mapIdx xs _ i hi]

theorem mulBeforeScalar_getD (xs : List ℝ) (s : ℕ) (g : ℝ) (i : ℕ)
    (hi : i < xs.length) (d : ℝ) :
    (mulBeforeScalar xs s g).getD i d
      = if i < s then xs.getD i d * g else xs.getD i d := by
  unfold mulBeforeScalar
  rw [getD_mapIdx xs _ i hi]

theorem mulFromScalar_getD (xs : List ℝ) (e : ℕ) (g : ℝ) (i : ℕ)
    (hi : i < xs.length) (d : ℝ) :
    (mulFromScalar xs e g).getD i d
      = if e ≤ i then xs.getD i d * g else xs.getD i d := by
  unfold mulFromScalar
  rw [getD_mapIdx xs _ i hi]

theorem apply_length (p : GTParams) (samples : List ℝ) :
    (GainTransition.apply p samples).length = samples.length := by
  simp only [GainTransition.apply]
  split_ifs <;>
    simp only [mulFromScalar_length, mulBeforeScalar_length,
      mulSliceMask_length]

theorem apply_getD (p : GTParams) (samples : List ℝ)
    (h3 : 3 ≤ p.fade_time_samples) (h1 : 1 ≤ samples.length)
    (hl : -(p.fade_time_samples : ℤ) + 2 ≤ p.t0)
    (hr : p.t0 ≤ (samples.length : ℤ) - 2)
    (i : ℕ) (hi : i < samples.length) :
    (GainTransition.apply p samples).getD i 0
      = samples.getD i 0 * gain_multiplier p samples.length i := by
  have hs0 : (if p.t0 < 0 then (0 : ℤ) else p.t0)
      = ((effectiveStart p.t0 : ℕ) : ℤ) := by
    unfold effectiveStart
    split_ifs <;> omega
  have he0 : (if p.t0 + (p.fade_time_samples : ℤ) > (samples.length : ℤ)
        then ((samples.length : ℕ) : ℤ)
        else p.t0 + (p.fade_time_samples : ℤ))
      = ((effectiveEnd p.t0 p.fade_time_samples samples.length : ℕ) : ℤ) := by
    unfold effectiveEnd
    split_ifs <;> omega
  have hse : effectiveStart p.t0
      ≤ effectiveEnd p.t0 p.fade_time_samples samples.length := by
    unfold effectiveStart effectiveEnd
    omega
  have heN : effectiveEnd p.t0 p.fade_time_samples samples.length
      ≤ samples.length := by
    unfold effectiveEnd
    omega
  simp only [GainTransition.apply, gain_multiplier]
  rw [hs0, he0]
  simp only [Int.toNat_natCast, gt_iff_lt, Int.natCast_pos, Nat.cast_lt]
  set s := effectiveStart p.t0 with hs_def
  set e := effectiveEnd p.t0 p.fade_time_samples samples.length with he_def
  set crop := cropMask p.t0 p.fade_time_samples samples.length
    (get_fade_mask p.start_gain_db p.end_gain_db p.fade_time_samples)
    with hcrop_def
  set A := convert_decibels_to_amplitude_ratio p.start_gain_db with hA
  set B := convert_decibels_to_amplitude_ratio p.end_gain_db with hB
  have hlen1 : (mulSliceMask samples s e crop).length = samples.length :=
    mulSliceMask_length samples s e crop
  rcases Nat.lt_or_ge i s with his | his
  · have hspos : 0 < s := by omega
    rw [if_pos hspos, if_pos his]
    by_cases heN' : e < samples.length
    · rw [if_pos heN',
        mulFromScalar_getD _ _ _ i
          (by rw [mulBeforeScalar_length, hlen1]; exact hi),
        if_neg (by omega : ¬ e ≤ i),
        mulBeforeScalar_getD _ _ _ i (by rw [hlen1]; exact hi),
        if_pos his,
        mulSliceMask_getD _ _ _ _ i hi,
        if_neg (by omega : ¬ (s ≤ i ∧ i < e))]
    · rw [if_neg heN',
        mulBeforeScalar_getD _ _ _ i (by rw [hlen1]; exact hi),
        if_pos his,
        mulSliceMask_getD _ _ _ _ i hi,
        if_neg (by omega : ¬ (s ≤ i ∧ i < e))]
  · rcases Nat.lt_or_ge i e with hie | hie
    · rw [if_neg (by omega : ¬ i < s), if_pos hie]
      by_cases heN' : e < samples.length
      · rw [if_pos heN']
        by_cases hspos : 0 < s
        · rw [if_pos hspos,
            mulFromScalar_getD _ _ _ i
              (by rw [mulBeforeScalar_length, hlen1]; exact hi),
            if_neg (by omega : ¬ e ≤ i),
            mulBeforeScalar_getD _ _ _ i (by rw [hlen1]; exact hi),
            if_neg (by omega : ¬ i < s),
            mulSliceMask_getD _ _ _ _ i hi,
            if_pos ⟨his, hie⟩]
        · rw [if_neg hspos,
            mulFromScalar_getD _ _ _ i (by rw [hlen1]; exact hi),
            if_neg (by omega : ¬ e ≤ i),
            mulSliceMask_getD _ _ _ _ i hi,
            if_pos ⟨his, hie⟩]
      · rw [if_neg heN']
        by_cases hspos : 0 < s
        · rw [if_pos hspos,
            mulBeforeScalar_getD _ _ _ i (by rw [hlen1]; exact hi),
            if_neg (by omega : ¬ i < s),
            mulSliceMask_getD _ _ _ _ i hi,
            if_pos ⟨his, hie⟩]
        · rw [if_neg hspos,
            mulSliceMask_getD _ _ _ _ i hi,
            if_pos ⟨his, hie⟩]
    · rw [if_neg (by omega : ¬ i < s), if_neg (by omega : ¬ i < e)]
      have heN' : e < samples.length := by omega
      rw [if_pos heN']
      by_cases hspos : 0 < s
      · rw [if_pos hspos,
          mulFromScalar_getD _ _ _ i
            (by rw [mulBeforeScalar_length, hlen1]; exact hi),
          if_pos hie,
          mulBeforeScalar_getD _ _ _ i (by rw [hlen1]; exact hi),
          if_neg (by omega : ¬ i < s),
          mulSliceMask_getD _ _ _ _ i hi,
          if_neg (by omega : ¬ (s ≤ i ∧ i < e))]
      · rw [if_neg hspos,
          mulFromScalar_getD _ _ _ i (by rw [hlen1]; exact hi),
          if_pos hie,
          mulSliceMask_getD _ _ _ _ i hi,
          if_neg (by omega : ¬ (s ≤ i ∧ i < e))]

/-- **C4.** For every (2-D) waveform and valid per-invocation parameters,
each output sample at index `i` equals the input sample at `i` times: the
start-gain amplitude when `i < effective_start`, the cropped curve value
at `i - effective_start` when `effective_start ≤ i < effective_end`, and
the end-gain amplitude when `i ≥ effective_end` — the same multiplier at
index `i` in every channel. -/
theorem apply_sample_formula (p : GTParams) (chans : List (List ℝ))
    (total : ℕ) (hlen : ∀ ch ∈ chans, ch.length = total)
    (h3 : 3 ≤ p.fade_time_samples) (h1 : 1 ≤ total)
    (hl : -(p.fade_time_samples : ℤ) + 2 ≤ p.t0)
    (hr : p.t0 ≤ (total : ℤ) - 2) (c i : ℕ)
    (hc : c < chans.length) (hi : i < total) :
    ((applyMultichannel p chans).getD c []).getD i 0
      = ((chans.getD c []).getD i 0) * gain_multiplier p total i := by
  unfold applyMultichannel
  rw [List.getD_eq_getElem (List.map (GainTransition.apply p) chans) []
      (by rw [List.length_map]; exact hc),
    List.getElem_map, List.getD_eq_getElem chans [] hc]
  have hch : (chans[c]).length = total := hlen _ (List.getElem_mem hc)
  have hi' : i < (chans[c]).length := by rw [hch]; exact hi
  have h1' : 1 ≤ (chans[c]).length := by rw [hch]; exact h1
  have hr' : p.t0 ≤ ((chans[c]).length : ℤ) - 2 := by rw [hch]; exact hr
  have := apply_getD p (chans[c]) h3 h1' hl hr' i hi'
  rw [hch] at this
  exact this

/-- Witness for C4: one channel of four ones, `fade = 3`, `t0 = 1`,
sampled at index 0 (the held-start-gain region). -/
theorem apply_sample_formula_witness :
    ((applyMultichannel ⟨3, 1, 0, 0⟩ [[1, 1, 1, 1]]).getD 0 []).getD 0 0
      = ((([[1, 1, 1, 1]] : List (List ℝ)).getD 0 []).getD 0 0)
          * gain_multiplier ⟨3, 1, 0, 0⟩ 4 0 :=
  apply_sample_formula ⟨3, 1, 0, 0⟩ [[1, 1, 1, 1]] 4
    (by intro ch h; rw [List.mem_singleton] at h; rw [h]; rfl)
    (by decide) (by decide) (by decide) (by decide) 0 0 (by decide) (by decide)

/-- **C5.** `apply` preserves shape: on a 1-D waveform the sample count is
unchanged; on a 2-D waveform both the channel count and every channel's
sample count are unchanged.  (The sample type is `ℝ` on both sides by
construction, mirroring the in-place float32 multiplies, which cannot
change the dtype.) -/
theorem apply_preserves_shape (p : GTParams) :
    (∀ samples : List ℝ,
      (GainTransition.apply p samples).length = samples.length) ∧
    (∀ chans : List (List ℝ),
      (applyMultichannel p chans).length = chans.length ∧
      ∀ c, ((applyMultichannel p chans).getD c []).length
        = (chans.getD c []).length) := by
  refine ⟨apply_length p, fun chans => ⟨?_, ?_⟩⟩
  · unfold applyMultichannel
    rw [List.length_map]
  · intro c
    by_cases hc : c < chans.length
    · unfold applyMultichannel
      rw [List.getD_eq_getElem _ _ (by rw [List.length_map]; exact hc),
        List.getElem_map, List.getD_eq_getElem chans _ hc, apply_length]
    · have hc' : chans.length ≤ c := Nat.le_of_not_lt hc
      unfold applyMultichannel
      rw [List.getD_eq_default _ _ (by rw [List.length_map]; exact hc'),
        List.getD_eq_default _ _ hc']

/-- Witness for C8: the `sampleRNG` draw 5 lands in `[3, ∞)` after
clamping, so the staged parameters carry `fade_time_samples = 5 ≥ 3`. -/
theorem randomize_fade_time_ge_three_witness :
    3 ≤ (GTParams.mk 5 0 0 0).fade_time_samples :=
  randomize_fade_time_ge_three sampleCfg 10 16000 sampleRNG ⟨5, 0, 0, 0⟩
    rfl

/-- Witness for the amended C3 at `start = 0 dB`, `end = 6 dB`,
`length = 3`. -/
theorem get_fade_mask_spec_witness :
    (get_fade_mask 0 6 3).length = 3 ∧
    0 < (get_fade_mask 0 6 3).getD 1 1 ∧
    (get_fade_mask 0 6 3).getD 0 1 = convert_decibels_to_amplitude_ratio 0 ∧
    (get_fade_mask 0 6 3).getD (3 - 1) 1
      = convert_decibels_to_amplitude_ratio 6 ∧
    (get_fade_mask 0 6 3).getD 0 1 ≤ (get_fade_mask 0 6 3).getD 2 1 :=
  ⟨(get_fade_mask_spec 0 6 3 (by decide)).1,
    (get_fade_mask_spec 0 6 3 (by decide)).2.1 1 (by decide),
    (get_fade_mask_spec 0 6 3 (by decide)).2.2.1,
    (get_fade_mask_spec 0 6 3 (by decide)).2.2.2.1 (by decide),
    (get_fade_mask_spec 0 6 3 (by decide)).2.2.2.2.1 (by norm_num) 0 2
      (by decide) (by decide)⟩
